import Mathlib

/-!
Verification of the behaviors demonstrated by the two instructional notebooks
of this repository (Introduction.ipynb, which holds two concatenated notebook
documents, and Variable.ipynb).  The notebooks are short call sequences into
an external dataflow-graph framework together with captured outputs.  The
framework itself is not part of the repository, so the externally-defined
contracts the notebooks narrate are modelled here from the spec and from the
call sequences and captured outputs recorded in the notebook sources.  The
cell/output structure of the notebooks themselves is taken directly from the
committed files.
-/

namespace TF

/-! ### Operation-name uniquification and name scopes -/

/-- Modelled from the spec: the external framework (not this repository)
uniquifies operation and name-scope names; when a requested name is already
taken in the graph namespace it appends "_1", "_2", and so on.
`candidate n 0` is the raw name, `candidate n i` the i-th fallback. -/
def candidate (n : String) : Nat → String
  | 0 => n
  | i + 1 => n ++ "_" ++ toString (i + 1)

/-- Modelled from the spec: pick the first candidate name not yet in use.
A list of `used.length + 1` candidates always holds one that is free, so the
search range suffices; `none` would only arise were the range exhausted. -/
def uniquify (used : List String) (n : String) : Option String :=
  ((List.range (used.length + 1)).map (candidate n)).find? (fun c => !used.contains c)

/-- Graph-construction events demonstrated in the name-scope cell of the
second notebook document of Introduction.ipynb. -/
inductive NsEvent where
  | constOp (n : String)
  | openScope (n : String)
  | closeScope

/-- Namespace state of a graph under construction: the names already taken
and the stack of active name-scope prefixes. -/
structure NsState where
  used : List String
  stack : List String

/-- Current name prefix: the innermost open scope, or the empty prefix. -/
def NsState.pfx (s : NsState) : String := s.stack.headD ""

/-- Modelled from the spec: run the construction events, uniquifying each
requested operation name and name-scope name against the names already in
use, and collect the resulting operation names in order. -/
def runEvents : NsState → List NsEvent → Option (NsState × List String)
  | s, [] => some (s, [])
  | s, NsEvent.constOp n :: es =>
      match uniquify s.used (s.pfx ++ n) with
      | none => none
      | some full =>
          match runEvents ⟨full :: s.used, s.stack⟩ es with
          | none => none
          | some (s2, ops) => some (s2, full :: ops)
  | s, NsEvent.openScope n :: es =>
      match uniquify s.used (s.pfx ++ n) with
      | none => none
      | some full => runEvents ⟨full :: s.used, (full ++ "/") :: s.stack⟩ es
  | s, NsEvent.closeScope :: es => runEvents ⟨s.used, s.stack.tail⟩ es

/-- The six tf.constant calls, all requesting the name "c", and the
name-scope nesting exactly as in the notebook cell. -/
def nameScopeDemo : List NsEvent :=
  [NsEvent.constOp "c", NsEvent.constOp "c",
   NsEvent.openScope "outer", NsEvent.constOp "c",
   NsEvent.openScope "inner", NsEvent.constOp "c", NsEvent.closeScope,
   NsEvent.constOp "c",
   NsEvent.openScope "inner", NsEvent.constOp "c", NsEvent.closeScope,
   NsEvent.closeScope]

/-- Operation names produced by the demonstrated construction calls. -/
def demoOpNames : Option (List String) :=
  (runEvents ⟨[], []⟩ nameScopeDemo).map (fun r => r.2)

/-! ### Variables, sessions, assign_add -/

/-- Session-held variable state: the current value of each initialized
variable, `none` for an uninitialized one.  Modelled from the spec: a
variable exists outside the context of a single session.run call. -/
abbrev VarState := String → Option ℚ

/-- A variable as declared in the graph: its name and initial value. -/
structure VarDef where
  name : String
  initVal : ℚ

/-- The session.run requests demonstrated in Variable.ipynb: running the
global initializer, running an assign_add op, and reading a variable. -/
inductive SessOp where
  | globalInit (vs : List VarDef)
  | assignAdd (v : String) (d : ℚ)
  | readVar (v : String)

def setVar (s : VarState) (n : String) (q : ℚ) : VarState :=
  fun m => if m = n then some q else s m

/-- Modelled from the spec: one session.run call.  The global initializer
sets each listed variable to its initial value; assign_add adds to the
current value and returns the new value; a read returns the current value.
The state persists: it is the input of the next run call. -/
def runOp (s : VarState) : SessOp → VarState × Option ℚ
  | SessOp.globalInit vs => (vs.foldl (fun st v => setVar st v.name v.initVal) s, none)
  | SessOp.assignAdd v d =>
      match s v with
      | some q => (setVar s v (q + d), some (q + d))
      | none => (s, none)
  | SessOp.readVar v => (s, s v)

/-- Successive session.run calls threading the persistent variable state,
collecting the fetched values. -/
def runSeq (s : VarState) : List SessOp → VarState × List (Option ℚ)
  | [] => (s, [])
  | op :: ops =>
      let r := runOp s op
      let rest := runSeq r.1 ops
      (rest.1, r.2 :: rest.2)

def emptySession : VarState := fun _ => none

/-- The Variable.ipynb demonstration: b is declared with a zeros initializer,
the global initializer runs, then the assign_add(1) op runs, then the value
is fetched again in later run calls. -/
def assignDemoOps : List SessOp :=
  [SessOp.globalInit [⟨"b", 0⟩], SessOp.assignAdd "b" 1,
   SessOp.readVar "b", SessOp.readVar "b"]

def assignDemoResults : List (Option ℚ) := (runSeq emptySession assignDemoOps).2

/-! ### Dataset with one-shot iterator -/

/-- One-shot iterator state over the tensor slices: the rows and the cursor. -/
structure IterState where
  rows : List (List Int)
  pos : Nat

/-- Modelled from the spec: running get_next returns the next row and
advances the iterator; past the end it raises the out-of-range signal,
yields no row, and leaves the iterator exhausted. -/
def getNext (s : IterState) : Except String (List Int) × IterState :=
  match s.rows.get? s.pos with
  | some r => (Except.ok r, ⟨s.rows, s.pos + 1⟩)
  | none => (Except.error "OutOfRangeError", s)

/-- Iterator state after n session.run calls on the get_next tensor. -/
def iterAfter (s : IterState) : Nat → IterState
  | 0 => s
  | n + 1 => (getNext (iterAfter s n)).2

/-- Result of the (n+1)-th session.run call on the get_next tensor. -/
def nthRun (s : IterState) (n : Nat) : Except String (List Int) :=
  (getNext (iterAfter s n)).1

/-- The dataset built in Introduction.ipynb from the 4-row array. -/
def sliceDemo : IterState := ⟨[[0, 1], [2, 3], [4, 5], [6, 7]], 0⟩

/-! ### Placeholders: missing feeds, shape mismatch, square -/

/-- A value supplied through feed_dict: a scalar or a flat vector. -/
inductive FeedVal where
  | scalar (x : ℚ)
  | vec (xs : List ℚ)

/-- The two failures quoted in the placeholder cell of Introduction.ipynb. -/
inductive RunError where
  | invalidArgument
  | valueError
deriving DecidableEq

/-- Modelled from the spec: evaluating y = tf.square(x) for the placeholder x
declared with shape [3].  With no feed the framework raises
InvalidArgumentError; a fed value whose shape does not match [3] (such as the
scalar 37.0) raises ValueError; a fed 3-vector yields its elementwise square. -/
def runSquare : Option FeedVal → Except RunError (List ℚ)
  | none => Except.error RunError.invalidArgument
  | some (FeedVal.scalar _) => Except.error RunError.valueError
  | some (FeedVal.vec xs) =>
      if xs.length = 3 then Except.ok (xs.map (fun x => x * x))
      else Except.error RunError.valueError

/-! ### One value per tensor within a single run call -/

/-- Modelled from the spec: within a single session.run call the
random_uniform node is evaluated exactly once; the draw is the parameter r,
and both fetched tensors out1 = vec + 1 and out2 = vec + 2 are computed from
that one draw. -/
def runVecOut (r : List ℚ) : List ℚ × List ℚ :=
  (r.map (fun x => x + 1), r.map (fun x => x + 2))

/-- A run call fetching vec alone returns the draw of that call; distinct
run calls receive independent draws. -/
def runVecAlone (r : List ℚ) : List ℚ := r

/-! ### Collections -/

/-- Modelled from the spec: collections are named lists of objects; any
string is a valid collection name and an absent name denotes the empty list,
so no collection need be created beforehand. -/
abbrev Collections := String → List String

def emptyCollections : Collections := fun _ => []

/-- Modelled from the spec: tf.add_to_collection appends the object to the
named list, implicitly creating the collection. -/
def addToCollection (cols : Collections) (n obj : String) : Collections :=
  fun m => if m = n then cols m ++ [obj] else cols m

/-- Modelled from the spec: tf.get_collection returns the named list. -/
def getCollection (cols : Collections) (n : String) : List String := cols n

def GLOBAL_VARIABLES : String := "variables"
def LOCAL_VARIABLES : String := "local_variables"
def TRAINABLE_VARIABLES : String := "trainable_variables"

/-- Modelled from the spec: tf.get_variable places the new variable in the
given collections (by default GLOBAL_VARIABLES and TRAINABLE_VARIABLES;
with collections=[LOCAL_VARIABLES] only there). -/
def getVariable (cols : Collections) (name : String) (keys : List String) : Collections :=
  keys.foldl (fun c k => addToCollection c k name) cols

/-- Collection state after the five tf.get_variable calls of Variable.ipynb,
in cell order, at the point of the add_to_collection cell. -/
def variableNotebookCollections : Collections :=
  getVariable (getVariable (getVariable (getVariable (getVariable emptyCollections
    "my_variable" [GLOBAL_VARIABLES, TRAINABLE_VARIABLES])
    "my_int_variable" [GLOBAL_VARIABLES, TRAINABLE_VARIABLES])
    "other_variable" [GLOBAL_VARIABLES, TRAINABLE_VARIABLES])
    "my_local" [LOCAL_VARIABLES])
    "my_non_trainable" [GLOBAL_VARIABLES]

/-- Collection state after tf.add_to_collection("my_collection_name", my_local). -/
def collectionsAfterAdd : Collections :=
  addToCollection variableNotebookCollections "my_collection_name" "my_local"

/-! ### global_variables_initializer and report_uninitialized_variables -/

/-- Which variables a session has initialized so far. -/
abbrev InitState := String → Bool

def noneInitialized : InitState := fun _ => false

/-- Modelled from the spec: creating the initializer op captures the
variables in the GLOBAL_VARIABLES collection at creation time; running the
op initializes exactly those. -/
def globalVariablesInitializer (cols : Collections) : List String :=
  getCollection cols GLOBAL_VARIABLES

/-- Running an initializer op marks its target variables initialized. -/
def runInitOp (targets : List String) (st : InitState) : InitState :=
  fun v => st v || targets.contains v

/-- Modelled from the spec: tf.report_uninitialized_variables lists the
variables of the graph the session has not yet initialized. -/
def reportUninitialized (allVars : List String) (st : InitState) : List String :=
  allVars.filter (fun v => !st v)

/-- The variables of Variable.ipynb in creation order at the point where
report_uninitialized_variables is run. -/
def variableNotebookVars : List String :=
  ["my_variable", "my_int_variable", "other_variable", "my_local", "my_non_trainable"]

/-- The initializer op created in the session cell of Variable.ipynb. -/
def demoInitOp : List String := globalVariablesInitializer variableNotebookCollections

/-- Initialization state after running the global initializer and then
my_variable.initializer, as the notebook does before reporting. -/
def initStateAfterDemo : InitState :=
  runInitOp ["my_variable"] (runInitOp demoInitOp noneInitialized)

end TF

namespace Notebooks

/-! ### Cell structure of the committed notebook files -/

/-- Code cells of the first notebook document inside Introduction.ipynb:
cell index within the document paired with the length of its captured
outputs list, in order, from the committed file. -/
def introPart0Outputs : List (Nat × Nat) :=
  [(1, 1), (3, 1), (4, 0), (7, 0), (10, 1), (12, 1), (14, 1), (17, 0), (19, 1),
   (22, 0), (24, 1), (26, 1), (28, 0), (31, 0), (34, 1), (36, 1), (39, 0),
   (41, 1), (43, 1), (47, 0), (49, 0), (51, 1), (53, 1), (55, 0), (57, 1), (60, 1)]

/-- Code cells of the second notebook document inside Introduction.ipynb. -/
def introPart1Outputs : List (Nat × Nat) :=
  [(4, 0), (5, 1), (11, 1), (13, 1), (15, 1), (18, 0), (20, 1)]

/-- Code cells of Variable.ipynb with their captured output counts. -/
def variableOutputs : List (Nat × Nat) :=
  [(1, 0), (3, 0), (5, 0), (7, 0), (10, 0), (12, 0), (14, 0), (16, 1), (18, 1),
   (20, 1), (22, 0), (24, 0), (26, 1), (28, 0), (30, 0), (32, 1), (34, 0),
   (36, 0), (38, 0), (40, 0), (42, 0), (44, 0), (46, 0)]

def allCodeCellOutputs : List (Nat × Nat) :=
  introPart0Outputs ++ introPart1Outputs ++ variableOutputs

/-- Whether a code cell has a non-empty captured outputs list. -/
def cellHasOutput (c : Nat × Nat) : Bool := c.2 != 0

/-- Lines of the only code cell of the notebooks mentioning the file-writing
call sequence (tf.summary.FileWriter, add_graph, flush), verbatim from
Introduction.ipynb; they are the complete set of such lines in code cells of
both notebooks. -/
def fileWriterCellLines : List String :=
  ["# writer = tf.summary.FileWriter(\x27.\x27)",
   "# writer.add_graph(tf.get_default_graph())",
   "# writer.flush()"]

/-- The one shell-command line of the notebooks, verbatim from
Introduction.ipynb. -/
def shellCellLines : List String :=
  ["# ! tensorboard --logdir ."]

/-- A Python comment line: its first character after leading spaces is the
hash character. -/
def isCommentLine (l : String) : Bool :=
  (l.data.dropWhile (fun c => c == ' ')).head? == some (Char.ofNat 35)

/-- Active (executed) lines of a cell: the lines not commented out. -/
def activeLines (ls : List String) : List String := ls.filter (fun l => !isCommentLine l)

/-- All lines of code cells of either notebook that touch the file system or
invoke a CLI. -/
def persistenceTouchingLines : List String := fileWriterCellLines ++ shellCellLines

end Notebooks

/-- Sanity: the first requested "c" is free and stays "c". -/
theorem uniquify_fresh_example : TF.uniquify [] "c" = some "c" := by decide

/-- C1: in the graph built by the demonstrated construction calls no two
operations carry the same name (the operation-name list has no duplicate),
and the six constants all requested with name "c" receive exactly the names
"c", "c_1", "outer/c", "outer/inner/c", "outer/c_1", "outer/inner_1/c", the
framework appending "_1", "_2", and so on when a requested operation name or
name-scope name is already taken in the current context. -/
theorem nameScope_unique_names_demo :
    TF.demoOpNames =
      some ["c", "c_1", "outer/c", "outer/inner/c", "outer/c_1", "outer/inner_1/c"]
    ∧ (TF.demoOpNames.getD []).Nodup := by
  exact ⟨by decide, by decide⟩

/-- C2: a variable persists across session runs: a run call that only reads
leaves the session state unchanged, a run of an assign_add op changes only
the assigned variable (adding to its retained value), and in the notebook
demonstration running b.assign_add(1) on the zero-initialized b returns 1.0
and every later run call still sees the value 1.0. -/
theorem variable_persists_across_runs :
    (∀ s w, (TF.runOp s (TF.SessOp.readVar w)).1 = s)
    ∧ (∀ s v w d, (TF.runOp s (TF.SessOp.assignAdd w d)).1 v =
        if v = w then (s w).map (fun q => q + d) else s v)
    ∧ TF.assignDemoResults = [none, some 1, some 1, some 1] := by
  refine ⟨fun s w => rfl, fun s v w d => ?_, ?_⟩
  · by_cases hv : v = w
    · subst hv
      cases h : s v with
      | none => simp [TF.runOp, h]
      | some q => simp [TF.runOp, h, TF.setVar]
    · cases h : s w with
      | none => simp [TF.runOp, h, hv]
      | some q => simp [TF.runOp, h, TF.setVar, hv]
  · simp [TF.assignDemoResults, TF.assignDemoOps, TF.runSeq, TF.runOp,
      TF.setVar, TF.emptySession]

/-- Helper: after four get_next calls the demonstrated one-shot iterator is
exhausted, and each further call leaves it exhausted. -/
theorem iterAfter_sliceDemo_saturates (k : Nat) :
    TF.iterAfter TF.sliceDemo (4 + k) = ⟨TF.sliceDemo.rows, 4⟩ := by
  induction k with
  | zero => rfl
  | succ k ih =>
      have h : TF.iterAfter TF.sliceDemo (4 + (k + 1)) =
          (TF.getNext (TF.iterAfter TF.sliceDemo (4 + k))).2 := rfl
      rw [h, ih]
      rfl

/-- C3: for the dataset built from the 4-row array with a one-shot iterator,
the first four session.run calls on the get_next tensor return the rows
[0 1], [2 3], [4 5], [6 7] in that order, and every subsequent run call
raises the out-of-range signal and returns no row. -/
theorem one_shot_iterator_rows_then_out_of_range :
    (TF.nthRun TF.sliceDemo 0 = Except.ok [0, 1]
      ∧ TF.nthRun TF.sliceDemo 1 = Except.ok [2, 3]
      ∧ TF.nthRun TF.sliceDemo 2 = Except.ok [4, 5]
      ∧ TF.nthRun TF.sliceDemo 3 = Except.ok [6, 7])
    ∧ ∀ k, TF.nthRun TF.sliceDemo (4 + k) = Except.error "OutOfRangeError" := by
  refine ⟨⟨rfl, rfl, rfl, rfl⟩, fun k => ?_⟩
  unfold TF.nthRun
  rw [iterAfter_sliceDemo_saturates k]
  rfl

/-- C4: evaluating the tensor y = tf.square(x) raises the missing-feed
failure (InvalidArgumentError) exactly when no value is fed for the
placeholder x; when a value is fed, y is the elementwise square of the fed
vector: [1 4 9] for [1, 2, 3] and [0 0 25] for [0, 0, 5]. -/
theorem placeholder_missing_feed_and_square :
    (∀ f, TF.runSquare f = Except.error TF.RunError.invalidArgument ↔ f = none)
    ∧ TF.runSquare (some (TF.FeedVal.vec [1, 2, 3])) = Except.ok [1, 4, 9]
    ∧ TF.runSquare (some (TF.FeedVal.vec [0, 0, 5])) = Except.ok [0, 0, 25] := by
  refine ⟨fun f => ?_, by norm_num [TF.runSquare], by norm_num [TF.runSquare]⟩
  cases f with
  | none => simp [TF.runSquare]
  | some v =>
      cases v with
      | scalar x => simp [TF.runSquare]
      | vec xs =>
          simp only [TF.runSquare]
          split <;> simp

/-- C5: feeding the scalar 37.0 for the placeholder declared with shape [3]
is a shape mismatch: the run call raises ValueError and produces no result. -/
theorem placeholder_shape_mismatch_value_error :
    TF.runSquare (some (TF.FeedVal.scalar 37)) = Except.error TF.RunError.valueError :=
  rfl

/-- C6 counterexample: it is not the case that every code cell of the two
notebooks has a non-empty captured outputs list; the claim as stated is
false on the committed files (e.g. the commented-out FileWriter cell, index
4 of the first document of Introduction.ipynb, and the import cell, index 1
of Variable.ipynb, both have empty outputs lists). -/
theorem not_every_code_cell_has_outputs :
    Notebooks.allCodeCellOutputs.all Notebooks.cellHasOutput = false := by
  decide

/-- C6 amended: of the 56 code cells of the two notebooks exactly 26 have a
non-empty captured outputs list, namely cells 1, 3, 10, 12, 14, 19, 24, 26,
34, 36, 41, 43, 51, 53, 57, 60 of the first document of Introduction.ipynb,
cells 5, 11, 13, 15, 20 of its second document, and cells 16, 18, 20, 26, 32
of Variable.ipynb; the remaining 30 code cells have empty outputs lists. -/
theorem code_cell_outputs_exactly_printing_cells :
    Notebooks.allCodeCellOutputs.length = 56
    ∧ ((Notebooks.introPart0Outputs.filter Notebooks.cellHasOutput).map Prod.fst =
        [1, 3, 10, 12, 14, 19, 24, 26, 34, 36, 41, 43, 51, 53, 57, 60])
    ∧ ((Notebooks.introPart1Outputs.filter Notebooks.cellHasOutput).map Prod.fst =
        [5, 11, 13, 15, 20])
    ∧ ((Notebooks.variableOutputs.filter Notebooks.cellHasOutput).map Prod.fst =
        [16, 18, 20, 26, 32]) := by
  exact ⟨by decide, by decide, by decide, by decide⟩

/-- C7: the committed notebooks persist no state: every line of the code
cells that writes a file (the tf.summary.FileWriter / add_graph / flush
sequence) or invokes a CLI (the tensorboard shell command) is commented out,
so executing the code cells as committed runs none of them and the file
system is unchanged. -/
theorem committed_cells_write_no_files :
    Notebooks.activeLines Notebooks.persistenceTouchingLines = []
    ∧ Notebooks.persistenceTouchingLines.all Notebooks.isCommentLine = true := by
  exact ⟨by decide, by decide⟩

/-- C8: within one session.run call the random vector has a single value:
for every draw r of that call, the two fetched tensors satisfy
out2 = out1 + 1 elementwise (both are computed from the one evaluation of
vec), while distinct run calls can return different values for vec. -/
theorem single_evaluation_per_run :
    (∀ r, (TF.runVecOut r).2 = ((TF.runVecOut r).1).map (fun x => x + 1))
    ∧ (∃ r₁ r₂, TF.runVecAlone r₁ ≠ TF.runVecAlone r₂) := by
  refine ⟨fun r => ?_, ⟨[0], [1], by simp [TF.runVecAlone]⟩⟩
  simp only [TF.runVecOut, List.map_map]
  refine List.map_congr_left fun x _ => ?_
  simp [Function.comp]
  ring

/-- C9: collection add/get round-trip: for any collection state, name and
object, after add_to_collection the list returned by get_collection is the
previous list with the object appended (so it contains the object, and no
collection need exist beforehand), and in the notebook retrieving
"my_collection_name" after adding my_local yields exactly [my_local]. -/
theorem collection_add_get_roundtrip :
    (∀ cols n obj, TF.getCollection (TF.addToCollection cols n obj) n =
        TF.getCollection cols n ++ [obj])
    ∧ TF.getCollection TF.collectionsAfterAdd "my_collection_name" = ["my_local"] := by
  refine ⟨fun cols n obj => ?_, by decide⟩
  simp [TF.getCollection, TF.addToCollection]

/-- C10: the initializer op returned by tf.global_variables_initializer()
targets exactly the GLOBAL_VARIABLES collection at creation time, which in
Variable.ipynb holds the four global variables and not my_local (created
with collections=[LOCAL_VARIABLES]); after running the op (and the explicit
my_variable initializer) report_uninitialized_variables still reports
exactly my_local. -/
theorem global_initializer_exactly_globals :
    TF.demoInitOp = ["my_variable", "my_int_variable", "other_variable", "my_non_trainable"]
    ∧ TF.demoInitOp.contains "my_local" = false
    ∧ TF.reportUninitialized TF.variableNotebookVars TF.initStateAfterDemo = ["my_local"] := by
  exact ⟨by decide, by decide, by decide⟩
